import Mathlib

/-!
Shallow embedding of `src/main.py` (Apple-Book-Highlight-Extractor).

The program reads two SQLite stores (an annotation store and a library
store), extracts highlight rows, resolves book titles, and writes a
markdown document.  We embed the data each SQL query can observe as plain
Lean structures:

* a table row is a structure of `Option`-typed columns (`none` = SQL NULL);
* schema drift (tables or columns missing in a given store version) is
  modelled with boolean schema flags on the store; a query whose table or
  columns are missing fails structurally (Python `sqlite3.OperationalError`);
* `ORDER BY <col> DESC` is modelled with `List.insertionSort` under a
  total preorder that puts SQL NULL last in descending order (SQLite
  treats NULL as smaller than every value);
* Python truthiness tests (`if x:`) on nullable strings/numbers are
  modelled by `truthyStr` / `truthyInt`;
* `datetime.now()` is modelled by an explicit clock parameter `now`
  (seconds since the 1970 epoch); `datetime` values are carried as their
  epoch seconds and formatted with `fmtDateTime` (fixed UTC rendering of
  Python's `strftime` pattern used by the exporter);
* the floating-point `ZREADINGPROGRESS` column is carried as an integer
  number of tenths of a percent, so the `{progress*100:.1f}` rendering
  becomes exact integer formatting (no claim depends on float rounding).
-/

/-- Python truthiness of a nullable string: `None` and `""` are falsy. -/
def truthyStr : Option String → Bool
  | none => false
  | some s => s ≠ ""

/-- Python truthiness of a nullable integer: `None` and `0` are falsy. -/
def truthyInt : Option Int → Bool
  | none => false
  | some n => n ≠ 0

/-- Python `str(x)` as used inside an f-string on a nullable column:
`None` renders as the literal text "None". -/
def pyShow : Option String → String
  | none => "None"
  | some s => s

/-- `needle` is a prefix of `hay` (on character lists). -/
def leadsL : List Char → List Char → Bool
  | [], _ => true
  | _ :: _, [] => false
  | a :: as, b :: bs => a == b && leadsL as bs

/-- `needle` occurs as a contiguous sublist of `hay`. -/
def occursL (needle : List Char) : List Char → Bool
  | [] => needle.isEmpty
  | b :: bs => leadsL needle (b :: bs) || occursL needle bs

/-- Case-insensitive substring test: Python `needle.lower() in hay.lower()`,
also the model of SQL `LOWER(col) LIKE LOWER('%needle%')` for a
wildcard-free needle. -/
def containsCI (hay needle : String) : Bool :=
  occursL (needle.data.map Char.toLower) (hay.data.map Char.toLower)

/-- Descending comparison on a nullable SQL numeric sort key:
`keyGE a b` means row with key `a` may come before row with key `b` in
`ORDER BY ... DESC` output.  SQLite sorts NULL below every value, so NULL
comes last in descending order. -/
def keyGE : Option Int → Option Int → Bool
  | some a, some b => decide (b ≤ a)
  | some _, none => true
  | none, some _ => false
  | none, none => true

/-- The row ordering used to model `ORDER BY key DESC`. -/
def keyRel {α : Type} (key : α → Option Int) (a b : α) : Prop :=
  keyGE (key a) (key b) = true

instance {α : Type} (key : α → Option Int) : DecidableRel (keyRel key) := by
  intro a b
  unfold keyRel
  infer_instance

instance {α : Type} (key : α → Option Int) : IsTotal α (keyRel key) :=
  ⟨fun a b => by
    unfold keyRel
    cases key a <;> cases key b <;> simp [keyGE] <;> omega⟩

instance {α : Type} (key : α → Option Int) : IsTrans α (keyRel key) :=
  ⟨fun a b c => by
    unfold keyRel
    cases key a <;> cases key b <;> cases key c <;> simp [keyGE] <;> omega⟩

/-- Model of `ORDER BY key DESC` over the rows of a table. -/
def sortByKeyDesc {α : Type} (key : α → Option Int) (l : List α) : List α :=
  List.insertionSort (keyRel key) l

/-- One row of the `ZAEANNOTATION` table of the annotation store.
Columns are the ones named by the primary query in `get_highlights`. -/
structure AnnotationRow where
  selectedText : Option String      -- ZANNOTATIONSELECTEDTEXT
  creationDate : Option Int         -- ZANNOTATIONCREATIONDATE (seconds since 2001)
  noteText : Option String          -- ZANNOTATIONNOTE
  assetId : Option String           -- ZANNOTATIONASSETID
  representativeText : Option String -- ZANNOTATIONREPRESENTATIVETEXT
  annotationType : Option Int       -- ZANNOTATIONTYPE
  isUnderline : Option Int          -- ZANNOTATIONISUNDERLINE
  deleted : Option Int              -- ZANNOTATIONDELETED
  deriving Repr, DecidableEq

/-- The annotation store: `hasSchema` is true when the `ZAEANNOTATION`
table and every column referenced by the primary query exist (otherwise
the primary query raises `sqlite3.OperationalError`). -/
structure AnnotationStore where
  hasSchema : Bool
  rows : List AnnotationRow
  deriving Repr, DecidableEq

/-- One row of a library-store table (`ZBKLIBRARYASSET` / `ZBKLIBRARY`). -/
structure LibraryRow where
  assetId : Option String           -- ZASSETID
  bkAssetId : Option String         -- ZBKASSETID
  title : Option String             -- ZTITLE
  author : Option String            -- ZAUTHOR
  progress : Option Int             -- ZREADINGPROGRESS, in tenths of a percent
  lastOpened : Option Int           -- ZLASTOPENDATE (seconds since 2001)
  description : Option String       -- ZBOOKDESCRIPTION
  genre : Option String             -- ZGENRE
  deriving Repr, DecidableEq

/-- The library store, with schema flags for the tables/columns probed by
the three title queries and by the fallback query.
`hasAssetTable` covers `ZBKLIBRARYASSET` together with its `ZTITLE`
column; `hasLibraryTable` covers `ZBKLIBRARY` with `ZTITLE`/`ZASSETID`. -/
structure LibraryStore where
  hasAssetTable : Bool
  hasAssetIdCol : Bool
  hasBkAssetIdCol : Bool
  hasLibraryTable : Bool
  hasFallbackCols : Bool
  assetRows : List LibraryRow
  libraryRows : List LibraryRow
  deriving Repr, DecidableEq

/-- `SELECT ZTITLE FROM t WHERE keycol = ?` followed by `fetchone()`:
the first row whose key column equals the asset id (SQL `=` never
matches NULL). -/
def fetchTitleRow (rows : List LibraryRow) (key : LibraryRow → Option String)
    (aid : String) : Option LibraryRow :=
  rows.find? (fun r => key r == some aid)

/-- Outcome of one candidate title query: `.error ()` is a structural
failure (`sqlite3.OperationalError`), `.ok none` found no row. -/
def titleQuery1 (st : LibraryStore) (aid : String) :
    Except Unit (Option LibraryRow) :=
  if st.hasAssetTable && st.hasAssetIdCol then
    .ok (fetchTitleRow st.assetRows (fun r => r.assetId) aid)
  else .error ()

def titleQuery2 (st : LibraryStore) (aid : String) :
    Except Unit (Option LibraryRow) :=
  if st.hasAssetTable && st.hasBkAssetIdCol then
    .ok (fetchTitleRow st.assetRows (fun r => r.bkAssetId) aid)
  else .error ()

def titleQuery3 (st : LibraryStore) (aid : String) :
    Except Unit (Option LibraryRow) :=
  if st.hasLibraryTable then
    .ok (fetchTitleRow st.libraryRows (fun r => r.assetId) aid)
  else .error ()

/-- The ordered outcomes of the three candidate queries of
`get_book_title`. -/
def titleQueryResults (st : LibraryStore) (aid : String) :
    List (Except Unit (Option LibraryRow)) :=
  [titleQuery1 st aid, titleQuery2 st aid, titleQuery3 st aid]

/-- The `for query in queries` loop body of `get_book_title`: skip a
structurally failing candidate (`except sqlite3.OperationalError:
continue`), keep going when `fetchone()` found no row (`if result:` is
false), and on the first row found return `result[0]`, i.e. its `ZTITLE`
value (which Python maps to `None` when the column is NULL). -/
def firstTitleResult : List (Except Unit (Option LibraryRow)) → Option String
  | [] => none
  | .error () :: rest => firstTitleResult rest
  | .ok none :: rest => firstTitleResult rest
  | .ok (some r) :: _ => r.title

/-- `BookHighlightExtractor.get_book_title` (src/main.py:83-108). -/
def get_book_title (lib : Option LibraryStore) (aid : String) : Option String :=
  match lib with
  | none => none
  | some st => firstTitleResult (titleQueryResults st aid)

/-- Canonical output record (the `Highlight` dataclass).  `created_at`
is carried as seconds since the 1970 epoch. -/
structure Highlight where
  text : String
  created_at : Int
  book_title : String
  chapter : Option String
  note : Option String
  deriving Repr, DecidableEq

/-- The fixed epoch offset between the store's 2001 epoch and the 1970
epoch. -/
def appleEpochOffset : Int := 978307200

/-- The timestamp conversion of `get_highlights`: Python
`if created_at_timestamp:` is a truthiness test, so a NULL *or zero*
stored value yields `datetime.now()`. -/
def convertTimestamp (t : Option Int) (now : Int) : Int :=
  if truthyInt t then t.getD 0 + appleEpochOffset else now

/-- The rows produced by the primary query of `get_highlights`:
`WHERE ZANNOTATIONSELECTEDTEXT IS NOT NULL AND ZANNOTATIONDELETED = 0
ORDER BY ZANNOTATIONCREATIONDATE DESC`. -/
def primaryRows (ast : AnnotationStore) : List AnnotationRow :=
  sortByKeyDesc (fun r => r.creationDate)
    (ast.rows.filter (fun r => r.selectedText.isSome && r.deleted == some 0))

/-- Title resolution for one annotation row: Python
`if row['book_id']: current_book_title = self.get_book_title(...)`. -/
def resolveRowTitle (lib : Option LibraryStore) (r : AnnotationRow) :
    Option String :=
  if truthyStr r.assetId then get_book_title lib (r.assetId.getD "") else none

/-- The filter test of the `get_highlights` loop: the row is skipped
(`continue`) exactly when the filter string is truthy, the resolved
title is truthy, and the filter does not occur case-insensitively in the
title. -/
def rowKept (lib : Option LibraryStore) (filter : Option String)
    (r : AnnotationRow) : Bool :=
  !(truthyStr filter && truthyStr (resolveRowTitle lib r)
      && !containsCI ((resolveRowTitle lib r).getD "") (filter.getD ""))

/-- The normalization of one primary-query row into a `Highlight`
(the body of the `for row in cursor` loop of `get_highlights`). -/
def buildHighlight (lib : Option LibraryStore) (now : Int)
    (r : AnnotationRow) : Highlight :=
  let createdAt := convertTimestamp r.creationDate now
  let baseText := r.selectedText.getD ""
  let text := if truthyStr r.representativeText then
      baseText ++ "\n\nContext: " ++ r.representativeText.getD ""
    else baseText
  let note0 := if truthyStr r.noteText then r.noteText.getD "" else ""
  let note := if r.annotationType.isSome then
      let noteMark := if truthyInt r.isUnderline then "Underline" else "Highlight"
      if note0 ≠ "" then noteMark ++ "\n" ++ note0 else noteMark
    else note0
  let title := if truthyStr r.assetId then
      (if truthyStr (resolveRowTitle lib r) then (resolveRowTitle lib r).getD ""
       else "Book ID: " ++ r.assetId.getD "")
    else "Unknown Book"
  { text := text, created_at := createdAt, book_title := title,
    chapter := none, note := some note }

/-- One iteration of the `get_highlights` loop: normalize the row and
either keep it or skip it via the title filter. -/
def processRow (lib : Option LibraryStore) (filter : Option String)
    (now : Int) (r : AnnotationRow) : Option Highlight :=
  if rowKept lib filter r then some (buildHighlight lib now r) else none

/-- Errors the embedded run can raise. -/
inductive ExtractErr where
  | storeNotFound      -- FileNotFoundError from connect()
  | noLibraryConn      -- AttributeError: _get_book_info with library_conn = None
  | fallbackSchemaErr  -- sqlite3.OperationalError inside _get_book_info
  deriving Repr, DecidableEq

/-- The progress rendering `f"Progress: {row['progress']*100:.1f}%"`,
with the stored progress modelled as an integer count of tenths of a
percent. -/
def progressText (p : Int) : String :=
  "Progress: " ++ toString (p / 10) ++ "." ++ toString (p % 10) ++ "%"

/-- Normalization of one library row in fallback mode (the loop body of
`_get_book_info`). -/
def fallbackRow (now : Int) (r : LibraryRow) : Highlight :=
  { text := match r.progress with
      | some p => progressText p
      | none => "No progress data"
    created_at := convertTimestamp r.lastOpened now
    book_title := r.title.getD ""
    chapter := if truthyStr r.genre then r.genre else none
    note := if truthyStr r.author || truthyStr r.description then
        some ("Author: " ++ pyShow r.author ++ "\nDescription: "
          ++ pyShow r.description)
      else none }

/-- `BookHighlightExtractor._get_book_info` (src/main.py:197-230).
Needs the library connection (`AttributeError` when it is `None`), and
its query has no local error handling, so a structural failure
propagates.  With a truthy filter the rows are filtered server-side with
no `ORDER BY`; otherwise they are ordered by `ZLASTOPENDATE DESC`. -/
def get_book_info (lib : Option LibraryStore) (filter : Option String)
    (now : Int) : Except ExtractErr (List Highlight) :=
  match lib with
  | none => .error .noLibraryConn
  | some st =>
    if st.hasFallbackCols then
      let base := st.assetRows.filter (fun r => r.title.isSome)
      let rows := if truthyStr filter then
          base.filter (fun r => containsCI (r.title.getD "") (filter.getD ""))
        else sortByKeyDesc (fun r => r.lastOpened) base
      .ok (rows.map (fallbackRow now))
    else .error .fallbackSchemaErr

/-- `BookHighlightExtractor.get_highlights` (src/main.py:110-195).
When the primary query fails structurally, or when it succeeds but the
accumulated `highlights` list is empty (only `if highlights:` returns
it), the method delegates to `_get_book_info` with the same filter. -/
def get_highlights (ast : AnnotationStore) (lib : Option LibraryStore)
    (filter : Option String) (now : Int) : Except ExtractErr (List Highlight) :=
  if ast.hasSchema then
    let hs := (primaryRows ast).filterMap (processRow lib filter now)
    if hs.isEmpty then get_book_info lib filter now else .ok hs
  else get_book_info lib filter now

/-- Zero-pad a (non-negative) number to two digits. -/
def pad2 (n : Int) : String :=
  if n < 10 then "0" ++ toString n else toString n

/-- Gregorian civil date from a count of days since the 1970 epoch
(standard era-based conversion, with floor division so negative day
counts are handled uniformly). -/
def civilFromDays (z0 : Int) : Int × Int × Int :=
  let z := z0 + 719468
  let era := z.ediv 146097
  let doe := z - era * 146097
  let yoe := (doe - doe / 1460 + doe / 36524 - doe / 146096) / 365
  let doy := doe - (365 * yoe + yoe / 4 - yoe / 100)
  let mp := (5 * doy + 2) / 153
  let d := doy - (153 * mp + 2) / 5 + 1
  let m := if mp < 10 then mp + 3 else mp - 9
  let y := yoe + era * 400 + (if m ≤ 2 then 1 else 0)
  (y, m, d)

/-- The exporter's date rendering: `strftime('%Y-%m-%d %H:%M:%S')` on an
epoch-seconds value, in a fixed (UTC) timezone. -/
def fmtDateTime (t : Int) : String :=
  let days := t.ediv 86400
  let secs := t.emod 86400
  let hh := secs / 3600
  let mm := (secs % 3600) / 60
  let ss := secs % 60
  let ymd := civilFromDays days
  toString ymd.1 ++ "-" ++ pad2 ymd.2.1 ++ "-" ++ pad2 ymd.2.2 ++ " "
    ++ pad2 hh ++ ":" ++ pad2 mm ++ ":" ++ pad2 ss

/-- One `f.write(...)` call of `export_to_markdown`, tagged by which
statement produced it. -/
inductive MDPiece where
  | header (title : String)      -- f.write(f"\n## {current_book}\n\n")
  | quote (text : String)        -- f.write(f"> {highlight.text}\n")
  | noteBlock (note : String)    -- f.write(f"\nNote: {highlight.note}\n")
  | chapterLine (ch : String)    -- f.write(f"\n- Chapter: {...}\n")
  | dateLine (d : String)        -- f.write(f"- Date: {...}\n\n")
  deriving Repr, DecidableEq

/-- The byte content of one write call. -/
def renderPiece : MDPiece → String
  | .header t => "\n## " ++ t ++ "\n\n"
  | .quote s => "> " ++ s ++ "\n"
  | .noteBlock n => "\nNote: " ++ n ++ "\n"
  | .chapterLine c => "\n- Chapter: " ++ c ++ "\n"
  | .dateLine d => "- Date: " ++ d ++ "\n\n"

/-- The write calls produced for one highlight, given the `current_book`
tracking variable: a section header exactly when the title differs from
`current_book`, then the quote, the optional note block (`if
highlight.note:` is a truthiness test), the chapter line
(`highlight.chapter or 'N/A'`), and the date line. -/
def recordPieces (cur : Option String) (h : Highlight) : List MDPiece :=
  (if some h.book_title ≠ cur then [MDPiece.header h.book_title] else [])
    ++ [MDPiece.quote h.text]
    ++ (if truthyStr h.note then [MDPiece.noteBlock (h.note.getD "")] else [])
    ++ [MDPiece.chapterLine (if truthyStr h.chapter then h.chapter.getD "" else "N/A"),
        MDPiece.dateLine (fmtDateTime h.created_at)]

/-- The full ordered sequence of write calls of the exporter loop,
threading the `current_book` variable (initially `None`). -/
def exportPieces (cur : Option String) : List Highlight → List MDPiece
  | [] => []
  | h :: t => recordPieces cur h ++ exportPieces (some h.book_title) t

/-- The bytes of the output document for a highlight sequence. -/
def exportDoc (hs : List Highlight) : String :=
  String.join ((exportPieces none hs).map renderPiece)

/-- The external state a run reads: whether the annotation store path
exists on disk (and its contents when it does), and whether the locator
produced a library path that exists on disk (and its contents). -/
structure Disk where
  annotationExists : Bool
  annotationStore : AnnotationStore
  libraryKnown : Bool
  libraryExists : Bool
  libraryStore : LibraryStore
  deriving Repr, DecidableEq

/-- `BookHighlightExtractor.connect` (src/main.py:72-81): raises
`FileNotFoundError` exactly when the annotation store path does not
exist; the library connection is opened only when its path is known and
exists, and is `None` otherwise (silently tolerated). -/
def connect (d : Disk) :
    Except ExtractErr (AnnotationStore × Option LibraryStore) :=
  if d.annotationExists then
    .ok (d.annotationStore,
      if d.libraryKnown && d.libraryExists then some d.libraryStore else none)
  else .error .storeNotFound

/-- Observable effects of one `export_to_markdown` run on the output
path. -/
inductive RunEvent where
  | openedOutput           -- open(output_path, 'w'): truncates/creates the file
  | wroteDoc (doc : String) -- the bytes written by the loop
  deriving Repr, DecidableEq

/-- `BookHighlightExtractor.export_to_markdown` (src/main.py:232-254):
`get_highlights` runs (connecting first) before `open(output_path, 'w')`,
so on any extraction error the output path is never opened; on success
the file is opened (truncated) and the document bytes are written. -/
def export_to_markdown (d : Disk) (filter : Option String) (now : Int) :
    List RunEvent × Option ExtractErr :=
  match connect d with
  | .error e => ([], some e)
  | .ok (ast, lib) =>
    match get_highlights ast lib filter now with
    | .error e => ([], some e)
    | .ok hs => ([RunEvent.openedOutput, RunEvent.wroteDoc (exportDoc hs)], none)

instance {ε α : Type} [DecidableEq ε] [DecidableEq α] :
    DecidableEq (Except ε α) := fun x y =>
  match x, y with
  | .ok a, .ok b =>
    if h : a = b then isTrue (by rw [h])
    else isFalse (by intro c; injection c; contradiction)
  | .ok a, .error f => isFalse (fun c => Except.noConfusion c)
  | .error e, .ok b => isFalse (fun c => Except.noConfusion c)
  | .error e, .error f =>
    if h : e = f then isTrue (by rw [h])
    else isFalse (by intro c; injection c; contradiction)

/-- The title carried by a header write, if any. -/
def headerTitle : MDPiece → Option String
  | .header t => some t
  | _ => none

/-- The titles of the section headers among a sequence of write calls,
in order. -/
def headersOf (ps : List MDPiece) : List String :=
  ps.filterMap headerTitle

/-- Spec reading of the exporter's grouping rule: keep a title exactly
when it differs from the immediately preceding one (the first title,
compared against the initial `prev = none`, is always kept). -/
def changedTitles : Option String → List String → List String
  | _, [] => []
  | prev, t :: rest =>
    if some t = prev then changedTitles (some t) rest
    else t :: changedTitles (some t) rest

/-- An annotation row with every column NULL (base for concrete rows). -/
def blankAnnRow : AnnotationRow :=
  { selectedText := none
    creationDate := none
    noteText := none
    assetId := none
    representativeText := none
    annotationType := none
    isUnderline := none
    deleted := none }

/-- A library row with every column NULL (base for concrete rows). -/
def blankLibRow : LibraryRow :=
  { assetId := none
    bkAssetId := none
    title := none
    author := none
    progress := none
    lastOpened := none
    description := none
    genre := none }

/-- A library store with the full schema and a single fully-titled book
row (the fallback extractor returns one record from it). -/
def libOneBook : LibraryStore :=
  { hasAssetTable := true
    hasAssetIdCol := true
    hasBkAssetIdCol := true
    hasLibraryTable := true
    hasFallbackCols := true
    assetRows := [{ blankLibRow with
      title := some "Dune"
      author := some "Frank Herbert"
      lastOpened := some 100 }]
    libraryRows := [] }

/-- An annotation store whose schema is intact but which holds no rows:
the primary query succeeds and returns the empty sequence. -/
def astNoRows : AnnotationStore := { hasSchema := true, rows := [] }

/-- A valid, kept annotation row with stored creation timestamp 3. -/
def annRowT3 : AnnotationRow :=
  { blankAnnRow with
    selectedText := some "w"
    creationDate := some 3
    deleted := some 0 }

/-- An annotation store with one valid row (primary path is non-empty). -/
def astOneRow : AnnotationStore := { hasSchema := true, rows := [annRowT3] }

/-- A kept annotation row whose stored creation timestamp is 0 (non-NULL
but falsy in Python). -/
def annRowT0 : AnnotationRow :=
  { blankAnnRow with
    selectedText := some "hello"
    creationDate := some 0
    deleted := some 0 }

/-- A kept annotation row with stored creation timestamp 1. -/
def annRowT1 : AnnotationRow :=
  { blankAnnRow with
    selectedText := some "old"
    creationDate := some 1
    deleted := some 0 }

/-- A kept annotation row whose stored creation timestamp is NULL. -/
def annRowTNull : AnnotationRow :=
  { blankAnnRow with
    selectedText := some "b"
    deleted := some 0 }

/-- Annotation store mixing a timestamped row with a NULL-timestamped
row: the primary query puts the NULL row last (DESC puts NULL last), but
its `created_at` is replaced by the clock. -/
def astMixed : AnnotationStore := { hasSchema := true, rows := [annRowT1, annRowTNull] }

/-- A library store in which the first title query finds a row whose
`ZTITLE` is the empty string, while a row reachable by the second
candidate query has the non-empty title "Dune". -/
def libEmptyTitle : LibraryStore :=
  { hasAssetTable := true
    hasAssetIdCol := true
    hasBkAssetIdCol := true
    hasLibraryTable := true
    hasFallbackCols := true
    assetRows := [{ blankLibRow with assetId := some "X", title := some "" },
                  { blankLibRow with bkAssetId := some "X", title := some "Dune" }]
    libraryRows := [] }

/-- A library store whose first candidate query fails structurally
(`ZASSETID` column absent) while the second finds a titled row. -/
def libNoAssetIdCol : LibraryStore :=
  { hasAssetTable := true
    hasAssetIdCol := false
    hasBkAssetIdCol := true
    hasLibraryTable := true
    hasFallbackCols := true
    assetRows := [{ blankLibRow with bkAssetId := some "Y", title := some "Dune" }]
    libraryRows := [] }

/-- A kept annotation row pointing at asset "X". -/
def annRowAssetX : AnnotationRow :=
  { blankAnnRow with
    selectedText := some "t"
    creationDate := some 2
    assetId := some "X"
    deleted := some 0 }

/-- An annotation store whose primary query fails structurally. -/
def astBadSchema : AnnotationStore := { hasSchema := false, rows := [] }

/-- A highlight with book title `t` (for the exporter claims). -/
def mkTitled (t : String) : Highlight :=
  { text := "x", created_at := 1, book_title := t, chapter := none, note := none }

/-- A disk state whose annotation store path is missing. -/
def diskNoStore : Disk :=
  { annotationExists := false
    annotationStore := astOneRow
    libraryKnown := false
    libraryExists := false
    libraryStore := libOneBook }

/-- A disk state with the mixed annotation store (one NULL timestamp)
and no library store: the export output depends on the clock. -/
def diskMixed : Disk :=
  { annotationExists := true
    annotationStore := astMixed
    libraryKnown := false
    libraryExists := false
    libraryStore := libOneBook }

/-- A disk state every stored timestamp of which is truthy. -/
def diskAllStamped : Disk :=
  { annotationExists := true
    annotationStore := astOneRow
    libraryKnown := true
    libraryExists := true
    libraryStore := libOneBook }

/-- A library row whose author column holds the empty string (non-NULL)
and whose description is NULL. -/
def libRowEmptyAuthor : LibraryRow :=
  { blankLibRow with title := some "T", author := some "" }

/-- A library row with an author and a NULL description. -/
def libRowAuthorOnly : LibraryRow :=
  { blankLibRow with title := some "T", author := some "A" }

/-- An annotation store with two truthy-timestamped rows (out of query
order, so the ORDER BY matters). -/
def astTwo : AnnotationStore := { hasSchema := true, rows := [annRowT1, annRowT3] }

theorem filterMap_ite_eq_map_filter {α β : Type} (p : α → Bool) (g : α → β) :
    ∀ l : List α,
      l.filterMap (fun r => if p r then some (g r) else none)
        = (l.filter p).map g := by
  intro l
  induction l with
  | nil => rfl
  | cons a t ih =>
    by_cases h : p a <;> simp [List.filterMap_cons, List.filter_cons, h, ih]

theorem mem_sortByKeyDesc {α : Type} {key : α → Option Int} {l : List α}
    {x : α} : x ∈ sortByKeyDesc key l ↔ x ∈ l :=
  (List.perm_insertionSort (keyRel key) l).mem_iff

theorem pairwise_sortByKeyDesc {α : Type} (key : α → Option Int)
    (l : List α) : (sortByKeyDesc key l).Pairwise (keyRel key) :=
  List.sorted_insertionSort (keyRel key) l

theorem mem_primaryRows {ast : AnnotationStore} {r : AnnotationRow}
    (h : r ∈ primaryRows ast) : r ∈ ast.rows := by
  unfold primaryRows at h
  rw [mem_sortByKeyDesc] at h
  exact List.mem_of_mem_filter h

theorem get_highlights_primary {ast : AnnotationStore}
    {lib : Option LibraryStore} {filter : Option String} {now : Int}
    (hschema : ast.hasSchema = true)
    (hne : (primaryRows ast).filterMap (processRow lib filter now) ≠ []) :
    get_highlights ast lib filter now =
      .ok ((primaryRows ast).filterMap (processRow lib filter now)) := by
  have h2 : ((primaryRows ast).filterMap (processRow lib filter now)).isEmpty
      = false := by
    rcases hcase : (primaryRows ast).filterMap (processRow lib filter now) with
      _ | ⟨a, t⟩
    · exact absurd hcase hne
    · rfl
  simp [get_highlights, hschema, h2]

theorem get_highlights_empty_primary {ast : AnnotationStore}
    {lib : Option LibraryStore} {filter : Option String} {now : Int}
    (hschema : ast.hasSchema = true)
    (hempty : (primaryRows ast).filterMap (processRow lib filter now) = []) :
    get_highlights ast lib filter now = get_book_info lib filter now := by
  simp [get_highlights, hschema, hempty]

theorem pairwise_created_at (ast : AnnotationStore) (lib : Option LibraryStore)
    (filter : Option String) (now : Int)
    (hts : ∀ r ∈ ast.rows, truthyInt r.creationDate = true) :
    ((primaryRows ast).filterMap (processRow lib filter now)).Pairwise
      (fun h1 h2 => h2.created_at ≤ h1.created_at) := by
  have hdef : processRow lib filter now = fun r =>
      if rowKept lib filter r then some (buildHighlight lib now r) else none := rfl
  rw [hdef, filterMap_ite_eq_map_filter]
  rw [List.pairwise_map]
  have hp : ((primaryRows ast).filter (rowKept lib filter)).Pairwise
      (keyRel fun r => r.creationDate) :=
    (pairwise_sortByKeyDesc _ _).sublist (List.filter_sublist _)
  refine List.Pairwise.imp_of_mem ?_ hp
  intro a b ha hb hrel
  have hta := hts a (mem_primaryRows (List.mem_of_mem_filter ha))
  have htb := hts b (mem_primaryRows (List.mem_of_mem_filter hb))
  rcases hca : a.creationDate with _ | ta
  · rw [hca] at hta; simp [truthyInt] at hta
  rcases hcb : b.creationDate with _ | tb
  · rw [hcb] at htb; simp [truthyInt] at htb
  have hrel2 : keyGE a.creationDate b.creationDate = true := hrel
  rw [hca, hcb] at hrel2
  simp only [keyGE, decide_eq_true_eq] at hrel2
  rw [hca] at hta
  rw [hcb] at htb
  simp [buildHighlight, convertTimestamp, hca, hcb, hta, htb]
  omega

theorem firstTitleResult_skips
    {l : List (Except Unit (Option LibraryRow))}
    (h : ∀ q ∈ l, q = .error () ∨ q = .ok none) :
    firstTitleResult l = none := by
  induction l with
  | nil => rfl
  | cons q rest ih =>
    rcases h q (List.mem_cons_self q _) with hq | hq <;>
      subst hq <;>
      simpa [firstTitleResult] using ih (fun p hp => h p (List.mem_cons_of_mem _ hp))

theorem firstTitleResult_finds
    {pre rest : List (Except Unit (Option LibraryRow))} {r : LibraryRow}
    (h : ∀ q ∈ pre, q = .error () ∨ q = .ok none) :
    firstTitleResult (pre ++ .ok (some r) :: rest) = r.title := by
  induction pre with
  | nil => rfl
  | cons q pre2 ih =>
    rcases h q (List.mem_cons_self q _) with hq | hq <;>
      subst hq <;>
      simpa [firstTitleResult] using ih (fun p hp => h p (List.mem_cons_of_mem _ hp))

theorem headersOf_append (ps qs : List MDPiece) :
    headersOf (ps ++ qs) = headersOf ps ++ headersOf qs :=
  List.filterMap_append ..

theorem headersOf_recordPieces (cur : Option String) (h : Highlight) :
    headersOf (recordPieces cur h)
      = if some h.book_title ≠ cur then [h.book_title] else [] := by
  unfold recordPieces headersOf
  by_cases hc : some h.book_title = cur <;> by_cases hn : truthyStr h.note <;>
    simp [hc, hn, headerTitle]

theorem headersOf_exportPieces (cur : Option String) (hs : List Highlight) :
    headersOf (exportPieces cur hs)
      = changedTitles cur (hs.map Highlight.book_title) := by
  induction hs generalizing cur with
  | nil => rfl
  | cons h t ih =>
    rw [List.map_cons]
    unfold exportPieces changedTitles
    rw [headersOf_append, headersOf_recordPieces, ih]
    by_cases hc : some h.book_title = cur <;> simp [hc]

theorem buildHighlight_now_irrel {lib : Option LibraryStore} {now1 now2 : Int}
    {r : AnnotationRow} (h : truthyInt r.creationDate = true) :
    buildHighlight lib now1 r = buildHighlight lib now2 r := by
  simp [buildHighlight, convertTimestamp, h]

theorem processRow_now_irrel {lib : Option LibraryStore}
    {filter : Option String} {now1 now2 : Int} {r : AnnotationRow}
    (h : truthyInt r.creationDate = true) :
    processRow lib filter now1 r = processRow lib filter now2 r := by
  unfold processRow
  rw [@buildHighlight_now_irrel lib now1 now2 r h]

theorem fallbackRow_now_irrel {now1 now2 : Int} {r : LibraryRow}
    (h : truthyInt r.lastOpened = true) :
    fallbackRow now1 r = fallbackRow now2 r := by
  simp [fallbackRow, convertTimestamp, h]

theorem get_book_info_now_irrel {lib : Option LibraryStore}
    {filter : Option String} {now1 now2 : Int}
    (h : ∀ st, lib = some st → ∀ r ∈ st.assetRows, truthyInt r.lastOpened = true) :
    get_book_info lib filter now1 = get_book_info lib filter now2 := by
  cases lib with
  | none => rfl
  | some st =>
    have hst := h st rfl
    unfold get_book_info
    by_cases hf : st.hasFallbackCols
    · simp only [hf, if_true]
      by_cases htr : truthyStr filter = true
      · simp only [htr, if_true]
        congr 1
        refine List.map_congr_left (fun r hr => fallbackRow_now_irrel ?_)
        exact hst r (List.mem_of_mem_filter (List.mem_of_mem_filter hr))
      · simp only [Bool.not_eq_true] at htr
        simp only [htr, Bool.false_eq_true, if_false]
        congr 1
        refine List.map_congr_left (fun r hr => fallbackRow_now_irrel ?_)
        rw [mem_sortByKeyDesc] at hr
        exact hst r (List.mem_of_mem_filter hr)
    · simp [hf]

theorem get_highlights_now_irrel {ast : AnnotationStore}
    {lib : Option LibraryStore} {filter : Option String} {now1 now2 : Int}
    (hann : ∀ r ∈ ast.rows, truthyInt r.creationDate = true)
    (hlib : ∀ st, lib = some st → ∀ r ∈ st.assetRows, truthyInt r.lastOpened = true) :
    get_highlights ast lib filter now1 = get_highlights ast lib filter now2 := by
  have hfm : (primaryRows ast).filterMap (processRow lib filter now1)
      = (primaryRows ast).filterMap (processRow lib filter now2) :=
    List.filterMap_congr
      (fun r hr => processRow_now_irrel (hann r (mem_primaryRows hr)))
  have hgb := @get_book_info_now_irrel lib filter now1 now2 hlib
  by_cases hs : ast.hasSchema <;> simp [get_highlights, hs, hfm, hgb]

/-- C1 (amended): when the primary annotation query executes without a
structural error, `get_highlights` returns exactly the normalized,
filtered primary-query sequence whenever that sequence is non-empty; when
it is empty, the method does not return the empty sequence but delegates
to the Book-Info fallback extractor (only `if highlights:` returns the
primary list), so the original claim's empty case fails. -/
theorem C1_primary_result (ast : AnnotationStore) (lib : Option LibraryStore)
    (filter : Option String) (now : Int) (hschema : ast.hasSchema = true) :
    ((primaryRows ast).filterMap (processRow lib filter now) ≠ [] →
      get_highlights ast lib filter now =
        .ok ((primaryRows ast).filterMap (processRow lib filter now))) ∧
    ((primaryRows ast).filterMap (processRow lib filter now) = [] →
      get_highlights ast lib filter now = get_book_info lib filter now) :=
  ⟨fun hne => get_highlights_primary hschema hne,
   fun he => get_highlights_empty_primary hschema he⟩

theorem C1_primary_result_witness :
    get_highlights astOneRow none none 7 =
      .ok ((primaryRows astOneRow).filterMap (processRow none none 7)) :=
  (C1_primary_result astOneRow none none 7 rfl).1 (by decide)

/-- C1 counterexample: with an intact schema and no annotation rows the
primary sequence is empty, yet `get_highlights` does not return `[]`:
it delegates to the Book-Info fallback extractor. -/
theorem C1_counterexample :
    (primaryRows astNoRows).filterMap (processRow (some libOneBook) none 5) = [] ∧
    get_highlights astNoRows (some libOneBook) none 5 ≠ .ok [] ∧
    get_highlights astNoRows (some libOneBook) none 5
      = get_book_info (some libOneBook) none 5 :=
  ⟨by decide, by decide, by decide⟩

/-- C2 (amended): for a processed annotation row whose stored creation
timestamp is truthy (non-NULL and nonzero), created_at = t + 978307200;
when the stored timestamp is NULL — or zero, which Python's truthiness
test `if created_at_timestamp:` also treats as absent — created_at is
the current time. -/
theorem C2_created_at (lib : Option LibraryStore) (filter : Option String)
    (now : Int) (r : AnnotationRow) (h : Highlight)
    (hp : processRow lib filter now r = some h) :
    (truthyInt r.creationDate = true →
      h.created_at = r.creationDate.getD 0 + 978307200) ∧
    (truthyInt r.creationDate = false → h.created_at = now) := by
  unfold processRow at hp
  split at hp
  · injection hp with hh
    subst hh
    refine ⟨fun ht => ?_, fun ht => ?_⟩ <;>
      simp [buildHighlight, convertTimestamp, ht, appleEpochOffset]
  · cases hp

theorem C2_created_at_witness :
    (buildHighlight none 9 annRowT3).created_at = 3 + 978307200 :=
  (C2_created_at none none 9 annRowT3 (buildHighlight none 9 annRowT3)
    (by decide)).1 (by decide)

/-- C2 counterexample: a row with the non-NULL stored timestamp 0 gets
the current time (here 5) as created_at, not 0 + 978307200. -/
theorem C2_counterexample :
    annRowT0.creationDate = some 0 ∧
    (processRow none none 5 annRowT0).map Highlight.created_at = some 5 ∧
    (5 : Int) ≠ 0 + 978307200 :=
  ⟨rfl, by decide, by decide⟩

/-- C3 (amended): `get_book_title` tries its three candidate queries in
order, skips a structurally failing candidate and a candidate that finds
no row, and returns the `ZTITLE` value of the first row found — which
may be NULL or the empty string, not necessarily a non-empty title; it
returns none when the library store is absent or when every candidate
fails or finds no row. -/
theorem C3_get_book_title (lib : Option LibraryStore) (aid : String) :
    (lib = none → get_book_title lib aid = none) ∧
    (∀ st, lib = some st →
      (∀ q ∈ titleQueryResults st aid, q = .error () ∨ q = .ok none) →
      get_book_title lib aid = none) ∧
    (∀ st pre r rest, lib = some st →
      titleQueryResults st aid = pre ++ .ok (some r) :: rest →
      (∀ q ∈ pre, q = .error () ∨ q = .ok none) →
      get_book_title lib aid = r.title) := by
  refine ⟨fun h => by rw [h]; rfl,
    fun st h hq => ?_, fun st pre r rest h heq hpre => ?_⟩
  · rw [h]
    unfold get_book_title
    exact firstTitleResult_skips hq
  · rw [h]
    show firstTitleResult (titleQueryResults st aid) = r.title
    rw [heq]
    exact firstTitleResult_finds hpre

theorem C3_get_book_title_witness :
    get_book_title (some libNoAssetIdCol) "Y" = some "Dune" :=
  (C3_get_book_title (some libNoAssetIdCol) "Y").2.2 libNoAssetIdCol
    [.error ()] { blankLibRow with bkAssetId := some "Y", title := some "Dune" }
    [.ok none] rfl (by decide) (by decide)

/-- C3 counterexample: the resolver returns the title of the first row
found even when that title is the empty string — so the returned title
is not non-empty, and it is not the first *non-empty* title reachable
(the second candidate query would have found "Dune"). -/
theorem C3_counterexample :
    get_book_title (some libEmptyTitle) "X" = some "" ∧
    titleQuery2 libEmptyTitle "X"
      = .ok (some { blankLibRow with bkAssetId := some "X", title := some "Dune" }) :=
  ⟨by decide, by decide⟩

/-- C4 (amended): with a filter supplied, a primary row is excluded iff
the filter string is truthy, the resolved title is truthy (non-None and
non-empty), and the title does not contain the filter case-insensitively.
Rows whose title resolution returned None — or the empty string, which
Python's `if current_book_title:` treats identically — are kept
regardless of the filter. -/
theorem C4_filter (lib : Option LibraryStore) (filter : Option String)
    (now : Int) (r : AnnotationRow) :
    processRow lib filter now r = none ↔
      (truthyStr filter = true ∧ truthyStr (resolveRowTitle lib r) = true ∧
        containsCI ((resolveRowTitle lib r).getD "") (filter.getD "") = false) := by
  unfold processRow
  constructor
  · intro h
    split at h
    · cases h
    · rename_i hkept
      rw [Bool.not_eq_true] at hkept
      unfold rowKept at hkept
      simp only [Bool.not_eq_false', Bool.and_eq_true, Bool.not_eq_true'] at hkept
      exact ⟨hkept.1.1, hkept.1.2, hkept.2⟩
  · intro h
    have hkept : rowKept lib filter r = false := by
      unfold rowKept
      simp only [Bool.not_eq_false', Bool.and_eq_true, Bool.not_eq_true']
      exact ⟨⟨h.1, h.2.1⟩, h.2.2⟩
    simp [hkept]

/-- C4 counterexample: a row whose title resolves to the empty string is
kept even though a resolved title exists and does not contain the filter
"Dune" — against the claim's exclusion rule. -/
theorem C4_counterexample :
    resolveRowTitle (some libEmptyTitle) annRowAssetX = some "" ∧
    containsCI "" "Dune" = false ∧
    processRow (some libEmptyTitle) (some "Dune") 0 annRowAssetX
      = some (buildHighlight (some libEmptyTitle) 0 annRowAssetX) :=
  ⟨by decide, by decide, by decide⟩

/-- C5 (amended): whenever every stored creation timestamp in the store
is truthy (non-NULL and nonzero) and the primary path yields a non-empty
sequence, the returned sequence is sorted by created_at descending.  The
original claim extended this to rows with NULL stored timestamps; the
query places those last (DESC puts NULL last) but they carry the current
time, which can break descending order — see the counterexample. -/
theorem C5_sorted (ast : AnnotationStore) (lib : Option LibraryStore)
    (filter : Option String) (now : Int)
    (hts : ∀ r ∈ ast.rows, truthyInt r.creationDate = true)
    (hschema : ast.hasSchema = true)
    (hne : (primaryRows ast).filterMap (processRow lib filter now) ≠ []) :
    get_highlights ast lib filter now =
      .ok ((primaryRows ast).filterMap (processRow lib filter now)) ∧
    ((primaryRows ast).filterMap (processRow lib filter now)).Pairwise
      (fun h1 h2 => h2.created_at ≤ h1.created_at) :=
  ⟨get_highlights_primary hschema hne,
   pairwise_created_at ast lib filter now hts⟩

theorem C5_sorted_witness :
    get_highlights astTwo none none 7 =
      .ok ((primaryRows astTwo).filterMap (processRow none none 7)) ∧
    ((primaryRows astTwo).filterMap (processRow none none 7)).Pairwise
      (fun h1 h2 => h2.created_at ≤ h1.created_at) :=
  C5_sorted astTwo none none 7 (by decide) rfl (by decide)

/-- C5 counterexample: one row with stored timestamp 1, one with NULL:
all returned highlights come from the primary path, but the created_at
sequence is [978307201, 2000000000] — increasing, not descending,
because the NULL row sorts last yet carries the (later) current time. -/
theorem C5_counterexample :
    get_highlights astMixed none none 2000000000 =
      .ok ((primaryRows astMixed).filterMap (processRow none none 2000000000)) ∧
    ((primaryRows astMixed).filterMap (processRow none none 2000000000)).map
        Highlight.created_at = [978307201, 2000000000] ∧
    ¬ ((primaryRows astMixed).filterMap (processRow none none 2000000000)).Pairwise
      (fun h1 h2 => h2.created_at ≤ h1.created_at) :=
  ⟨by decide, by decide, by decide⟩

/-- C6 (confirmed): when the primary query fails structurally,
`get_highlights` returns exactly what the Book-Info fallback extractor
returns for the same filter and the same store state (including the
fallback's own error outcomes). -/
theorem C6_fallback (ast : AnnotationStore) (lib : Option LibraryStore)
    (filter : Option String) (now : Int) (hfail : ast.hasSchema = false) :
    get_highlights ast lib filter now = get_book_info lib filter now := by
  simp [get_highlights, hfail]

theorem C6_fallback_witness :
    get_highlights astBadSchema (some libOneBook) (some "dune") 5
      = get_book_info (some libOneBook) (some "dune") 5 :=
  C6_fallback astBadSchema (some libOneBook) (some "dune") 5 rfl

/-- C7 (confirmed): the exporter emits a level-2 section header exactly
when the record's title differs from the immediately preceding record's
title (always for the first record); for the title sequence
[A, A, B, A] it emits the three headers [A, B, A] — the repeated A gives
two separate, unmerged sections. -/
theorem C7_headers :
    (∀ hs : List Highlight,
      headersOf (exportPieces none hs)
        = changedTitles none (hs.map Highlight.book_title)) ∧
    headersOf (exportPieces none
        [mkTitled "A", mkTitled "A", mkTitled "B", mkTitled "A"])
      = ["A", "B", "A"] :=
  ⟨fun hs => headersOf_exportPieces none hs, by decide⟩

/-- C8 (confirmed): `connect` raises StoreNotFound exactly when the
annotation store path does not exist on disk; in that case the export
run aborts with that error before producing any event — in particular
the output file is never opened (truncated), because extraction runs
before `open(output_path, 'w')`. -/
theorem C8_store_not_found (d : Disk) (filter : Option String) (now : Int) :
    (connect d = .error .storeNotFound ↔ d.annotationExists = false) ∧
    (d.annotationExists = false →
      export_to_markdown d filter now = ([], some .storeNotFound)) := by
  constructor
  · constructor
    · intro h
      by_cases he : d.annotationExists = true
      · simp [connect, he] at h
      · simpa using he
    · intro h
      simp [connect, h]
  · intro h
    simp [export_to_markdown, connect, h]

theorem C8_store_not_found_witness :
    export_to_markdown diskNoStore none 0 = ([], some .storeNotFound) :=
  (C8_store_not_found diskNoStore none 0).2 rfl

/-- C9 (amended): the export is a deterministic function of the store
contents and the clock; when every stored timestamp is truthy (so no
record falls back to `datetime.now()`), two runs at different times
produce byte-identical output.  In general the output depends on the
clock — see the counterexample. -/
theorem C9_deterministic (d : Disk) (filter : Option String) (now1 now2 : Int)
    (hann : ∀ r ∈ d.annotationStore.rows, truthyInt r.creationDate = true)
    (hlib : ∀ r ∈ d.libraryStore.assetRows, truthyInt r.lastOpened = true) :
    export_to_markdown d filter now1 = export_to_markdown d filter now2 := by
  unfold export_to_markdown connect
  by_cases he : d.annotationExists = true
  · simp only [he, if_true]
    have hg : get_highlights d.annotationStore
        (if d.libraryKnown && d.libraryExists then some d.libraryStore else none)
        filter now1
        = get_highlights d.annotationStore
            (if d.libraryKnown && d.libraryExists then some d.libraryStore else none)
            filter now2 := by
      apply get_highlights_now_irrel hann
      intro st hst r hr
      by_cases hl : (d.libraryKnown && d.libraryExists) = true
      · rw [if_pos hl] at hst
        injection hst with h2
        subst h2
        exact hlib r hr
      · rw [if_neg hl] at hst
        cases hst
    rw [hg]
  · simp only [Bool.not_eq_true] at he
    simp [he]

theorem C9_deterministic_witness :
    export_to_markdown diskAllStamped none 11
      = export_to_markdown diskAllStamped none 222 :=
  C9_deterministic diskAllStamped none 11 222 (by decide) (by decide)

/-- C9 counterexample: identical store contents, no filter, two runs at
different times: the NULL-timestamp row carries the clock into its Date
line, so the two output documents are not byte-identical. -/
theorem C9_counterexample :
    export_to_markdown diskMixed none 0 ≠ export_to_markdown diskMixed none 86400 := by
  decide

/-- C10 (amended): in fallback mode the note is absent iff both author
and description are falsy (NULL or the empty string); when either is
truthy the note carries both the "Author: " and "Description: " labels,
a NULL field rendering as the literal text "None" (but an empty-string
field renders as the empty string, not "None" — see the counterexample). -/
theorem C10_note (now : Int) (r : LibraryRow) :
    ((fallbackRow now r).note = none ↔
      (truthyStr r.author = false ∧ truthyStr r.description = false)) ∧
    ((truthyStr r.author || truthyStr r.description) = true →
      (fallbackRow now r).note =
        some ("Author: " ++ pyShow r.author ++ "\nDescription: "
          ++ pyShow r.description)) := by
  constructor
  · by_cases ha : truthyStr r.author = true <;>
      by_cases hd : truthyStr r.description = true <;>
        simp [fallbackRow, ha, hd]
  · intro h
    simp [fallbackRow, h]

theorem C10_note_witness :
    (fallbackRow 0 libRowAuthorOnly).note =
      some ("Author: " ++ pyShow libRowAuthorOnly.author ++ "\nDescription: "
        ++ pyShow libRowAuthorOnly.description) :=
  (C10_note 0 libRowAuthorOnly).2 (by decide)

/-- C10 counterexample: author is the empty string (non-NULL, so the
field is present) and description is NULL — exactly one field present —
yet the produced note is absent, not a string carrying both labels. -/
theorem C10_counterexample :
    libRowEmptyAuthor.author = some "" ∧
    libRowEmptyAuthor.description = none ∧
    (fallbackRow 0 libRowEmptyAuthor).note = none :=
  ⟨rfl, rfl, by decide⟩
